import Mathlib

/-!
Verification of the webknossos-cuber dataset/layer data model and the
wkw-to-tiff slice-export pipeline.

The development shallowly embeds the two source files
`wkcuber/api/Dataset.py` and `wkcuber/export_wkw_as_tiff.py`:
pure Python functions become Lean functions, the mutating `Dataset`
methods become explicit state transformers on `DatasetState`, and Python
exceptions become values of `PyError`.  External collaborators (numpy's
dtype parser, the filesystem, the block-storage engine, the task
executor) are modelled only on the fragment of behaviour this code
exercises, each with a doc comment saying exactly what is modelled.
-/

set_option autoImplicit false

namespace WkCuber

/-- The Python exceptions the embedded code can raise, identified by
raise site.  The spec's error taxonomy maps onto these as follows:
`ambiguousDtype` is the `AttributeError` raised at `Dataset.add_layer`
when both dtype arguments are given (AmbiguousDtypeError);
`duplicateLayer` is the `IndexError` raised by `add_layer` /
`add_symlink_layer` on a name collision (DuplicateLayerError);
`unknownLayer` is the `IndexError` raised by `delete_layer`
(UnknownLayerError); `typeConversion` is the `TypeError` raised by the
dtype conversion helpers (TypeConversionError); `categoryMismatch`,
`dtypeMismatch` and `numChannelsMismatch` are the `AssertionError`s of
`get_or_add_layer` (ConfigMismatchError); `invalidAxis` is the
`AssertionError` of the export tool's axis check (InvalidAxisError);
`keyError` is a Python `KeyError` from a dict subscript; `zeroDivision`
is a Python `ZeroDivisionError`. -/
inductive PyError where
  | ambiguousDtype
  | duplicateLayer
  | unknownLayer
  | typeConversion
  | categoryMismatch
  | dtypeMismatch
  | numChannelsMismatch
  | invalidAxis
  | keyError
  | zeroDivision
deriving DecidableEq, Repr

instance {ε α : Type} [DecidableEq ε] [DecidableEq α] : DecidableEq (Except ε α) :=
  fun a b =>
    match a, b with
    | .error x, .error y =>
      if h : x = y then .isTrue (by rw [h])
      else .isFalse (by intro hc; injection hc; contradiction)
    | .error _, .ok _ => .isFalse (by intro hc; cases hc)
    | .ok _, .error _ => .isFalse (by intro hc; cases hc)
    | .ok x, .ok y =>
      if h : x = y then .isTrue (by rw [h])
      else .isFalse (by intro hc; injection hc; contradiction)

/-- `is_int` from `Dataset.py`: `int(s)` succeeds.  It is only ever
applied to the tokens of `re.split("(\d+)", ...)`, which are either
maximal digit runs or digit-free segments; on that domain `int(s)`
succeeds exactly when the token is a nonempty digit run. -/
def is_int (s : String) : Bool :=
  !s.isEmpty && s.data.all Char.isDigit

/-- Python's `int(s)` on a nonempty digit run (decimal). -/
def pyStrToNat (s : String) : Nat :=
  s.data.foldl (fun n c => 10 * n + (c.toNat - 48)) 0

/-- A Python list comprehension `[f(x) for x in xs]` whose body may
raise: the first exception aborts the whole comprehension. -/
def pyListMap {α β : Type} (f : α → Except PyError β) : List α → Except PyError (List β)
  | [] => .ok []
  | a :: as => do
    let b ← f a
    let bs ← pyListMap f as
    return b :: bs

/-- Tokenizer worker for `pyReSplitDigits`; `fuel` only serves
termination and is always sufficient at the call site. -/
def splitDigitsGo (fuel : Nat) (cs : List Char) : List String :=
  match fuel with
  | 0 => [String.mk cs]
  | fuel + 1 =>
    let nd := cs.takeWhile (fun c => !c.isDigit)
    let rest := cs.dropWhile (fun c => !c.isDigit)
    if rest.isEmpty then [String.mk nd]
    else
      String.mk nd :: String.mk (rest.takeWhile Char.isDigit)
        :: splitDigitsGo fuel (rest.dropWhile Char.isDigit)

/-- Python's `re.split("(\d+)", s)`: the string split at maximal digit
runs, with the (captured) digit runs kept.  The result alternates
digit-free segments (possibly empty) with digit runs, beginning and
ending with a digit-free segment, e.g. `"uint24"` becomes
`["uint", "24", ""]`. -/
def pyReSplitDigits (s : String) : List String :=
  splitDigitsGo (s.length + 1) s.data

/-- The arithmetic `int(op(int(part), num_channels))` of
`convert_dtypes`, where `op` is `operator.truediv` (per-layer to
per-channel) or `operator.mul`.  A `None` channel count raises
`TypeError`; `truediv` by zero raises `ZeroDivisionError`.  For the
magnitudes appearing here (bit widths below 2^53, channel counts 1-4)
Python's `int(truediv(a, n))` equals natural floor division. -/
def pyOpDtype (per_layer_to_per_channel : Bool) (a : Nat) (num_channels : Option Nat) :
    Except PyError Nat :=
  match num_channels with
  | none => .error .typeConversion
  | some n =>
    if per_layer_to_per_channel then
      if n = 0 then .error .zeroDivision else .ok (a / n)
    else .ok (a * n)

/-- `convert_dtypes` from `Dataset.py`: `None` passes through; otherwise
the dtype string is split at digit runs and every digit run is
multiplied or divided by `num_channels`, the rest passing through
unchanged. -/
def convert_dtypes (dtype : Option String) (num_channels : Option Nat)
    (per_layer_to_per_channel : Bool) : Except PyError (Option String) := do
  match dtype with
  | none => return none
  | some s =>
    let parts := pyReSplitDigits s
    let converted ← pyListMap (fun part =>
      if is_int part then do
        let k ← pyOpDtype per_layer_to_per_channel (pyStrToNat part) num_channels
        return toString k
      else
        return part) parts
    return some (String.join converted)

/-- Modelled external library behaviour: numpy's `np.dtype` on the
fragment of inputs this development exercises, returning the canonical
name of the resulting dtype object (what `str` of it yields).
`np.dtype(None)` is the default `float64` dtype; the canonical
unsigned-integer dtype names parse to themselves; the alias spellings
`"uint"`, `"u1"`, `"u2"`, `"u4"`, `"u8"` are accepted and
canonicalized (as on 64-bit Linux, where C `ulong` is 64 bits), so for
an alias the canonical name differs from the input spelling; the
remaining strings this code feeds it (such as `"uint24"` or
`"uint48"`) are rejected with a `TypeError`.  numpy accepts further
spellings outside this fragment. -/
def npDtype : Option String → Except PyError String
  | none => .ok "float64"
  | some s =>
    if s ∈ (["uint8", "uint16", "uint32", "uint64"] : List String) then .ok s
    else if s = "uint" ∨ s = "u8" then .ok "uint64"
    else if s = "u1" then .ok "uint8"
    else if s = "u2" then .ok "uint16"
    else if s = "u4" then .ok "uint32"
    else .error .typeConversion

/-- `dtype_per_layer_to_dtype_per_channel` from `Dataset.py`:
`np.dtype(convert_dtypes(dtype_per_layer, num_channels, True))`, with a
`TypeError` caught and re-raised as a `TypeError` (same error kind, so
the model lets it pass through). -/
def dtype_per_layer_to_dtype_per_channel (dtype_per_layer : Option String)
    (num_channels : Option Nat) : Except PyError String :=
  match convert_dtypes dtype_per_layer num_channels true with
  | .error e => .error e
  | .ok s => npDtype s

/-- `dtype_per_channel_to_dtype_per_layer` from `Dataset.py`:
`convert_dtypes(np.dtype(dtype_per_channel), num_channels, False)`. -/
def dtype_per_channel_to_dtype_per_layer (dtype_per_channel : Option String)
    (num_channels : Option Nat) : Except PyError (Option String) :=
  match npDtype dtype_per_channel with
  | .error e => .error e
  | .ok s => convert_dtypes (some s) num_channels false

/-- The round trip of the spec's §8: per-channel to per-layer and back,
with a fixed channel count. -/
def dtype_round_trip (d : String) (n : Nat) : Except PyError String :=
  match dtype_per_channel_to_dtype_per_layer (some d) (some n) with
  | .error e => .error e
  | .ok dl => dtype_per_layer_to_dtype_per_channel dl (some n)

example : pyReSplitDigits "uint24" = ["uint", "24", ""] := by decide
example : pyReSplitDigits "uint8" = ["uint", "8", ""] := by decide
example : convert_dtypes (some "uint8") (some 3) false = .ok (some "uint24") := by decide
example : convert_dtypes (some "uint24") (some 3) true = .ok (some "uint8") := by decide
example : dtype_round_trip "uint8" 3 = .ok "uint8" := by decide
example : dtype_round_trip "uint24" 3 = .error .typeConversion := by decide
example : dtype_per_layer_to_dtype_per_channel none none = .ok "float64" := by decide
example : dtype_per_layer_to_dtype_per_channel (some "uint8") none
    = .error .typeConversion := by decide

/-! ## The slice-export pipeline (`export_wkw_as_tiff.py`) -/

/-- The `{"topleft": [...], "size": [...]}` bounding-box dictionary of
`export_wkw_as_tiff.py`, with the three components of each list spelled
out. -/
structure TiffBBox where
  topleft : Int × Int × Int
  size : Int × Int × Int
deriving DecidableEq, Repr

/-- The bounding-box computation of `export_tiff_slice`: the slice
number is added to the topleft and the size clamped to 1 along an axis.
The source is an `if` / `if`-`else` chain (not `elif`), so the `"y"`
test's `else` branch (the z update) also runs when `axis` is neither
`"x"` nor `"y"`; this is mirrored literally.  Each job receives its own
copy of the bounding box (under the external executor contract the job
arguments are serialized per job), so the computation is a pure function
of the original box and the slice number. -/
def export_tiff_slice_bbox (axis : String) (bbox : TiffBBox) (slice_number : Int) :
    TiffBBox :=
  let b1 :=
    if axis = "x" then
      { topleft := (bbox.topleft.1 + slice_number, bbox.topleft.2.1, bbox.topleft.2.2),
        size := (1, bbox.size.2.1, bbox.size.2.2) }
    else bbox
  if axis = "y" then
    { topleft := (b1.topleft.1, b1.topleft.2.1 + slice_number, b1.topleft.2.2),
      size := (b1.size.1, 1, b1.size.2.2) }
  else
    { topleft := (b1.topleft.1, b1.topleft.2.1, b1.topleft.2.2 + slice_number),
      size := (b1.size.1, b1.size.2.1, 1) }

/-- `wkw_name_and_bbox_to_tiff_name` from `export_wkw_as_tiff.py`,
embedded literally: both the `_topleft_` and the `_size_` fields of the
file name are filled from `bbox["topleft"]`. -/
def wkw_name_and_bbox_to_tiff_name (name : String) (bbox : TiffBBox) : String :=
  name ++ "_topleft_" ++ toString bbox.topleft.1 ++ "_" ++ toString bbox.topleft.2.1
    ++ "_" ++ toString bbox.topleft.2.2
    ++ "_size_" ++ toString bbox.topleft.1 ++ "_" ++ toString bbox.topleft.2.1
    ++ "_" ++ toString bbox.topleft.2.2 ++ ".tiff"

/-- The argument tuple of one slice job, as zipped together by
`export_tiff_stack`. -/
structure SliceJob where
  slice_number : Nat
  bbox : TiffBBox
  dest_path : String
  name : String
  axis : String
  dataset_path : String
deriving DecidableEq, Repr

/-- The job-list construction of `export_tiff_stack`: `axis_index` is 0
for `"x"`, 1 for `"y"` and 2 otherwise, `num_slices` is the size
component at that index, and the jobs are the zip of `range(num_slices)`
with the constant remaining arguments.  Directory creation and the
executor dispatch are external I/O and are not modelled; the per-slice
bounding box of job `i` is `export_tiff_slice_bbox axis bbox i`. -/
def export_tiff_stack_jobs (bbox : TiffBBox) (destination_path name axis
    dataset_path : String) : List SliceJob :=
  let axis_index : Nat := if axis = "x" then 0 else if axis = "y" then 1 else 2
  let num_slices : Nat :=
    (if axis_index = 0 then bbox.size.1
     else if axis_index = 1 then bbox.size.2.1 else bbox.size.2.2).toNat
  (List.range num_slices).map
    (fun i => ⟨i, bbox, destination_path, name, axis, dataset_path⟩)

/-- The `__main__` flow of `export_wkw_as_tiff.py` after argument
parsing, up to and including the construction of the slice jobs: the
axis membership assertion runs first; deriving the bounding box and the
default name read the dataset's metadata (external I/O), so those are
taken as inputs here.  The result is the list of slice jobs handed to
the executor. -/
def export_wkw_as_tiff_main (axis : String) (bbox : TiffBBox)
    (destination_path name dataset_path : String) : Except PyError (List SliceJob) :=
  if axis ∈ (["x", "y", "z"] : List String) then
    .ok (export_tiff_stack_jobs bbox destination_path name axis dataset_path)
  else
    .error .invalidAxis

example :
    export_tiff_slice_bbox "z" ⟨(0, 0, 0), (10, 20, 30)⟩ 4
      = ⟨(0, 0, 4), (10, 20, 1)⟩ := by decide
example :
    export_tiff_slice_bbox "y" ⟨(0, 0, 0), (10, 20, 30)⟩ 4
      = ⟨(0, 4, 0), (10, 1, 30)⟩ := by decide
example :
    export_tiff_slice_bbox "x" ⟨(0, 0, 0), (10, 20, 30)⟩ 4
      = ⟨(4, 0, 4), (1, 20, 1)⟩ := by decide
example :
    (export_tiff_stack_jobs ⟨(0, 0, 0), (10, 20, 30)⟩ "d" "n" "z" "p").length = 30 := by
  decide
example :
    wkw_name_and_bbox_to_tiff_name "n" ⟨(1, 2, 3), (4, 5, 6)⟩
      = "n_topleft_1_2_3_size_1_2_3.tiff" := by decide

/-! ## The dataset/layer data model (`api/Dataset.py`)

Python dicts with string keys are embedded as insertion-ordered
association lists with the usual dict operations. -/

/-- Keys of a dict, in insertion order. -/
def dictKeys {α : Type} (d : List (String × α)) : List String :=
  d.map Prod.fst

/-- Python `d[k]`, as an `Option` (a missing key is a `KeyError` at the
call sites, which check or handle it explicitly). -/
def lookup' {α : Type} : List (String × α) → String → Option α
  | [], _ => none
  | (k, v) :: rest, key => if k = key then some v else lookup' rest key

/-- Python `d[k] = v`: replace in place if the key is present, else
append. -/
def dictSet {α : Type} (d : List (String × α)) (k : String) (v : α) :
    List (String × α) :=
  if k ∈ dictKeys d then d.map (fun p => if p.1 = k then (k, v) else p)
  else d ++ [(k, v)]

/-- Python `del d[k]` at call sites that have checked `k` is present. -/
def dictErase {α : Type} (d : List (String × α)) (k : String) : List (String × α) :=
  d.filter (fun p => p.1 ≠ k)

/-- One in-memory `Layer` object, with the fields the embedded methods
read (`WKLayer`/`TiffLayer` construction itself is
`Layer.__init__(name, dataset, dtype_per_channel, num_channels)` with an
empty `mags` dict; the back reference to the dataset is left out).
`dtype_per_channel` is the canonical name of the numpy dtype object. -/
structure Layer where
  name : String
  dtype_per_channel : String
  num_channels : Nat
  mags : List String
deriving DecidableEq, Repr

/-- One layer descriptor of the properties manifest, with the fields the
embedded methods read: `category`, `element_class` (the per-layer dtype
string), `num_channels` and the registered resolution names. -/
structure LayerProperties where
  name : String
  category : String
  element_class : String
  num_channels : Nat
  mags : List String
deriving DecidableEq, Repr

/-- The mutable state of an `AbstractDataset`: the in-memory `layers`
dict and the properties' `data_layers` table.  The on-disk manifest is
not modelled separately: every embedded mutation of `data_layers` is
followed in the source by `_export_as_json`, which rewrites the whole
manifest from `data_layers`, so after each operation returns the
manifest mirrors `data_layers`. -/
structure DatasetState where
  layers : List (String × Layer)
  data_layers : List (String × LayerProperties)
deriving DecidableEq, Repr

/-- The empty dataset, as right after `create`. -/
def emptyDS : DatasetState := ⟨[], []⟩

/-- Outcome of a mutating `Dataset` method: the returned value or the
raised exception, together with the state at return/raise time (so a
raise that happens after a partial mutation keeps the mutated state). -/
inductive EResult (α : Type) where
  | ok : α → DatasetState → EResult α
  | err : PyError → DatasetState → EResult α
deriving DecidableEq, Repr

/-- Lines 155-159 of `Dataset.py`:
`dtype_per_layer = str(np.dtype(dtype_per_layer))`, with any exception
swallowed (`pass`) so that special strings like `"uint24"` survive
unchanged. -/
def normalize_dtype_per_layer (dl : String) : String :=
  match npDtype (some dl) with
  | .ok s => s
  | .error _ => dl

/-- The dtype-argument resolution of `add_layer` (lines 137-165): both
arguments given is an error; a per-channel dtype is parsed and
multiplied up to the per-layer dtype; a per-layer dtype is normalized
and divided down to the per-channel dtype; with neither, the default is
8 bits per channel.  Returns the resolved
`(dtype_per_layer, dtype_per_channel)` pair; `num_channels` has already
been defaulted to 1 by the caller. -/
def resolve_dtypes (dtype_per_layer dtype_per_channel : Option String)
    (num_channels : Nat) : Except PyError (String × String) :=
  match dtype_per_layer, dtype_per_channel with
  | some _, some _ => .error .ambiguousDtype
  | _, some dc =>
    match npDtype (some dc) with
    | .error e => .error e
    | .ok dcp =>
      match dtype_per_channel_to_dtype_per_layer (some dcp) (some num_channels) with
      | .error e => .error e
      | .ok (some dl) => .ok (dl, dcp)
      | .ok none => .ok ("", dcp)  -- unreachable: converting a non-None dtype is never None
  | some dl, none =>
    match dtype_per_layer_to_dtype_per_channel (some (normalize_dtype_per_layer dl))
        (some num_channels) with
    | .error e => .error e
    | .ok dcp => .ok (normalize_dtype_per_layer dl, dcp)
  | none, none =>
    .ok ("uint" ++ toString (8 * num_channels), "uint8")

/-- `AbstractDataset.add_layer`.  The duplicate-name check tests
membership in the in-memory `layers` dict; on success the properties
table is updated first (`Properties._add_layer` followed by the manifest
export — modelled from the spec, §4.2: the store records a descriptor
with the given name, category, per-layer dtype and channel count, and no
resolutions yet) and then the `layers` dict.  All raises happen before
either structure is touched. -/
def add_layer (s : DatasetState) (layer_name category : String)
    (dtype_per_layer dtype_per_channel : Option String) (num_channels : Option Nat) :
    EResult Layer :=
  let nc := num_channels.getD 1
  match resolve_dtypes dtype_per_layer dtype_per_channel nc with
  | .error e => .err e s
  | .ok (dl, dcp) =>
    if layer_name ∈ dictKeys s.layers then .err .duplicateLayer s
    else
      let s₁ : DatasetState :=
        { s with data_layers :=
            dictSet s.data_layers layer_name ⟨layer_name, category, dl, nc, []⟩ }
      let newLayer : Layer := ⟨layer_name, dcp, nc, []⟩
      .ok newLayer { s₁ with layers := dictSet s₁.layers layer_name newLayer }

/-- `AbstractDataset.get_or_add_layer`.  When the layer exists, the
category is checked against the properties entry, then the per-channel
dtype is recomputed from the raw `dtype_per_layer` and `num_channels`
arguments (line 202 — this raises a `TypeError` when `dtype_per_layer`
is given but `num_channels` is `None`), then the dtype and channel-count
assertions run, each skipped when its argument is `None`; the existing
layer is returned with no mutation.  When the layer does not exist, the
call is delegated to `add_layer`. -/
def get_or_add_layer (s : DatasetState) (layer_name category : String)
    (dtype_per_layer dtype_per_channel : Option String) (num_channels : Option Nat) :
    EResult Layer :=
  match lookup' s.layers layer_name with
  | some existing =>
    match lookup' s.data_layers layer_name with
    | none => .err .keyError s
    | some pe =>
      if pe.category ≠ category then .err .categoryMismatch s
      else
        match dtype_per_layer_to_dtype_per_channel dtype_per_layer num_channels with
        | .error e => .err e s
        | .ok dcp =>
          if dtype_per_layer.isSome ∧ existing.dtype_per_channel ≠ dcp then
            .err .dtypeMismatch s
          else
            match num_channels with
            | some n =>
              if existing.num_channels ≠ n then .err .numChannelsMismatch s
              else .ok existing s
            | none => .ok existing s
  | none => add_layer s layer_name category dtype_per_layer dtype_per_channel num_channels

/-- `AbstractDataset.delete_layer`: unknown names raise before any
mutation; otherwise the `layers` entry is removed, then the properties
entry (`Properties._delete_layer` plus manifest export — modelled from
the spec, §4.2), then the on-disk subtree (external filesystem, not
modelled). -/
def delete_layer (s : DatasetState) (layer_name : String) : EResult Unit :=
  if layer_name ∈ dictKeys s.layers then
    let s₁ : DatasetState := { s with layers := dictErase s.layers layer_name }
    .ok () { s₁ with data_layers := dictErase s₁.data_layers layer_name }
  else .err .unknownLayer s

/-- `AbstractDataset.add_symlink_layer`.  `layer_name` is
`basename(normpath(foreign_layer_path))` and `foreign` is the foreign
dataset's descriptor for that layer, read from the other dataset's
manifest (external I/O, taken as an input).  After the name-collision
check the symlink is created (filesystem, not modelled), the descriptor
is copied into the properties table and the manifest exported, and only
then is the in-memory `Layer` built — so a dtype-conversion failure at
that point leaves the properties updated but not `layers`. -/
def add_symlink_layer (s : DatasetState) (layer_name : String)
    (foreign : LayerProperties) : EResult Layer :=
  if layer_name ∈ dictKeys s.layers then .err .duplicateLayer s
  else
    let s₁ : DatasetState :=
      { s with data_layers := dictSet s.data_layers layer_name foreign }
    match dtype_per_layer_to_dtype_per_channel (some foreign.element_class)
        (some foreign.num_channels) with
    | .error e => .err e s₁
    | .ok dcp =>
      let newLayer : Layer := ⟨layer_name, dcp, foreign.num_channels, foreign.mags⟩
      .ok newLayer { s₁ with layers := dictSet s₁.layers layer_name newLayer }

/-- The §3 invariant: the keys of the in-memory `layers` dict and the
layer names of the properties table coincide. -/
def layersSync (s : DatasetState) : Prop :=
  ∀ k, k ∈ dictKeys s.layers ↔ k ∈ dictKeys s.data_layers

/-- Number of entries the properties table holds under a given name. -/
def countKey {α : Type} (d : List (String × α)) (k : String) : Nat :=
  (dictKeys d).count k

example :
    add_layer emptyDS "color" "color" none none (some 3)
      = .ok ⟨"color", "uint8", 3, []⟩
          ⟨[("color", ⟨"color", "uint8", 3, []⟩)],
           [("color", ⟨"color", "color", "uint24", 3, []⟩)]⟩ := by decide
example :
    add_layer emptyDS "L" "color" (some "uint8") (some "uint8") none
      = .err .ambiguousDtype emptyDS := by decide
example :
    get_or_add_layer
      ⟨[("L", ⟨"L", "uint8", 1, []⟩)], [("L", ⟨"L", "color", "uint8", 1, []⟩)]⟩
      "L" "color" (some "uint8") none none
      = .err .typeConversion
          ⟨[("L", ⟨"L", "uint8", 1, []⟩)], [("L", ⟨"L", "color", "uint8", 1, []⟩)]⟩ := by
  decide
example :
    delete_layer ⟨[("L", ⟨"L", "uint8", 1, []⟩)], [("L", ⟨"L", "color", "uint8", 1, []⟩)]⟩
      "L" = .ok () emptyDS := by decide

/-! ## Dictionary lemmas -/

lemma lookup'_eq_none_iff {α : Type} (d : List (String × α)) (k : String) :
    lookup' d k = none ↔ k ∉ dictKeys d := by
  induction d with
  | nil => simp [lookup', dictKeys]
  | cons p t ih =>
    obtain ⟨a, v⟩ := p
    by_cases h : a = k
    · subst h
      simp [lookup', dictKeys]
    · simp [lookup', dictKeys, h, ih, Ne.symm h]

lemma mem_dictKeys_of_lookup'_eq_some {α : Type} {d : List (String × α)} {k : String}
    {v : α} (h : lookup' d k = some v) : k ∈ dictKeys d := by
  by_contra hmem
  rw [← lookup'_eq_none_iff] at hmem
  rw [h] at hmem
  cases hmem

lemma dictKeys_map_replace {α : Type} (d : List (String × α)) (k : String) (v : α) :
    dictKeys (d.map (fun p => if p.1 = k then (k, v) else p)) = dictKeys d := by
  induction d with
  | nil => rfl
  | cons p t ih =>
    show (if p.1 = k then (k, v) else p).1 :: dictKeys (t.map _) = p.1 :: dictKeys t
    by_cases hp : p.1 = k
    · rw [if_pos hp, ih, hp]
    · rw [if_neg hp, ih]

lemma dictKeys_dictSet_of_mem {α : Type} {d : List (String × α)} {k : String} (v : α)
    (h : k ∈ dictKeys d) : dictKeys (dictSet d k v) = dictKeys d := by
  rw [dictSet, if_pos h]
  exact dictKeys_map_replace d k v

lemma dictKeys_dictSet_of_not_mem {α : Type} {d : List (String × α)} {k : String}
    (v : α) (h : k ∉ dictKeys d) : dictKeys (dictSet d k v) = dictKeys d ++ [k] := by
  rw [dictSet, if_neg h, dictKeys, dictKeys, List.map_append]
  rfl

lemma mem_dictKeys_dictSet {α : Type} (d : List (String × α)) (k : String) (v : α)
    (a : String) : a ∈ dictKeys (dictSet d k v) ↔ a ∈ dictKeys d ∨ a = k := by
  by_cases h : k ∈ dictKeys d
  · rw [dictKeys_dictSet_of_mem v h]
    constructor
    · exact Or.inl
    · rintro (ha | rfl)
      · exact ha
      · exact h
  · rw [dictKeys_dictSet_of_not_mem v h]
    simp

lemma mem_dictKeys_dictErase {α : Type} (d : List (String × α)) (k : String)
    (a : String) : a ∈ dictKeys (dictErase d k) ↔ a ∈ dictKeys d ∧ a ≠ k := by
  simp only [dictKeys, dictErase, List.mem_map, List.mem_filter]
  constructor
  · rintro ⟨p, ⟨hp, hq⟩, rfl⟩
    exact ⟨⟨p, hp, rfl⟩, by simpa using hq⟩
  · rintro ⟨⟨p, hp, rfl⟩, hk⟩
    exact ⟨p, ⟨hp, by simpa using hk⟩, rfl⟩

lemma lookup'_append_not_mem {α : Type} {d : List (String × α)} {k : String} (v : α)
    (h : k ∉ dictKeys d) : lookup' (d ++ [(k, v)]) k = some v := by
  induction d with
  | nil => simp [lookup']
  | cons p t ih =>
    obtain ⟨a, b⟩ := p
    simp only [dictKeys, List.map_cons, List.mem_cons, not_or] at h
    rw [List.cons_append, lookup', if_neg (fun hc => h.1 hc.symm)]
    exact ih h.2

lemma lookup'_map_replace {α : Type} {d : List (String × α)} {k : String} (v : α)
    (h : k ∈ dictKeys d) :
    lookup' (d.map (fun p => if p.1 = k then (k, v) else p)) k = some v := by
  induction d with
  | nil => cases h
  | cons p t ih =>
    obtain ⟨a, b⟩ := p
    by_cases hp : a = k
    · subst hp
      rw [List.map_cons]
      have hhead : (if ((a, b) : String × α).1 = a then (a, v) else (a, b)) = (a, v) :=
        if_pos rfl
      rw [hhead, lookup', if_pos rfl]
    · simp only [dictKeys, List.map_cons, List.mem_cons] at h
      simp only [List.map_cons]
      rw [show (if (a, b).1 = k then (k, v) else (a, b)) = (a, b) from if_neg hp]
      rw [lookup', if_neg hp]
      rcases h with h | h
      · exact absurd h.symm hp
      · exact ih h

lemma lookup'_dictSet_self {α : Type} (d : List (String × α)) (k : String) (v : α) :
    lookup' (dictSet d k v) k = some v := by
  by_cases h : k ∈ dictKeys d
  · rw [dictSet, if_pos h]
    exact lookup'_map_replace v h
  · rw [dictSet, if_neg h]
    exact lookup'_append_not_mem v h

lemma countKey_dictSet_of_not_mem {α : Type} {d : List (String × α)} {k : String}
    (v : α) (h : k ∉ dictKeys d) : countKey (dictSet d k v) k = 1 := by
  rw [countKey, dictKeys_dictSet_of_not_mem v h, List.count_append]
  rw [List.count_eq_zero.mpr h]
  simp

lemma countKey_eq_one_of_nodup {α : Type} {d : List (String × α)} {k : String}
    (hnd : (dictKeys d).Nodup) (h : k ∈ dictKeys d) : countKey d k = 1 :=
  List.count_eq_one_of_mem hnd h

/-! ## Preservation of the layers/properties synchronization -/

lemma layersSync_set_both {s : DatasetState} (k : String) (l : Layer)
    (p : LayerProperties) (hs : layersSync s) :
    layersSync ⟨dictSet s.layers k l, dictSet s.data_layers k p⟩ := by
  intro a
  show a ∈ dictKeys (dictSet s.layers k l) ↔ a ∈ dictKeys (dictSet s.data_layers k p)
  rw [mem_dictKeys_dictSet, mem_dictKeys_dictSet]
  exact or_congr_left (hs a)

lemma layersSync_erase_both {s : DatasetState} (k : String) (hs : layersSync s) :
    layersSync ⟨dictErase s.layers k, dictErase s.data_layers k⟩ := by
  intro a
  show a ∈ dictKeys (dictErase s.layers k) ↔ a ∈ dictKeys (dictErase s.data_layers k)
  rw [mem_dictKeys_dictErase, mem_dictKeys_dictErase]
  exact and_congr (hs a) Iff.rfl

lemma add_layer_sync {s : DatasetState} {ln cat : String} {dl dc : Option String}
    {nc : Option Nat} {l : Layer} {s₁ : DatasetState} (hs : layersSync s)
    (h : add_layer s ln cat dl dc nc = .ok l s₁) : layersSync s₁ := by
  cases hr : resolve_dtypes dl dc (nc.getD 1) with
  | error e =>
    simp only [add_layer, hr] at h
    exact EResult.noConfusion h
  | ok pr =>
    simp only [add_layer, hr] at h
    split at h
    · exact EResult.noConfusion h
    · injection h with h1 h2
      subst h2
      exact layersSync_set_both ln _ _ hs

lemma get_or_add_layer_sync {s : DatasetState} {ln cat : String} {dl dc : Option String}
    {nc : Option Nat} {l : Layer} {s₁ : DatasetState} (hs : layersSync s)
    (h : get_or_add_layer s ln cat dl dc nc = .ok l s₁) : layersSync s₁ := by
  cases hl : lookup' s.layers ln with
  | none =>
    simp only [get_or_add_layer, hl] at h
    exact add_layer_sync hs h
  | some existing =>
    simp only [get_or_add_layer, hl] at h
    cases hp : lookup' s.data_layers ln with
    | none =>
      simp only [hp] at h
      exact EResult.noConfusion h
    | some pe =>
      simp only [hp] at h
      split at h
      · exact EResult.noConfusion h
      · cases hc : dtype_per_layer_to_dtype_per_channel dl nc with
        | error e =>
          simp only [hc] at h
          exact EResult.noConfusion h
        | ok dcp =>
          simp only [hc] at h
          split at h
          · exact EResult.noConfusion h
          · cases nc with
            | some n =>
              simp only at h
              split at h
              · exact EResult.noConfusion h
              · injection h with h1 h2
                subst h2
                exact hs
            | none =>
              injection h with h1 h2
              subst h2
              exact hs

lemma delete_layer_sync {s : DatasetState} {ln : String} {s₁ : DatasetState}
    (hs : layersSync s) (h : delete_layer s ln = .ok () s₁) : layersSync s₁ := by
  unfold delete_layer at h
  split at h
  · injection h with h1 h2
    subst h2
    exact layersSync_erase_both ln hs
  · exact EResult.noConfusion h

lemma add_symlink_layer_sync {s : DatasetState} {ln : String} {p : LayerProperties}
    {l : Layer} {s₁ : DatasetState} (hs : layersSync s)
    (h : add_symlink_layer s ln p = .ok l s₁) : layersSync s₁ := by
  unfold add_symlink_layer at h
  split at h
  · exact EResult.noConfusion h
  · cases hc : dtype_per_layer_to_dtype_per_channel (some p.element_class)
        (some p.num_channels) with
    | error e => rw [hc] at h; exact EResult.noConfusion h
    | ok dcp =>
      rw [hc] at h
      injection h with h1 h2
      subst h2
      exact layersSync_set_both ln _ _ hs

lemma dtype_conv_of_none (nc : Option Nat) :
    dtype_per_layer_to_dtype_per_channel none nc = .ok "float64" := rfl

/-! ## The claims -/

/-- C1: the claim says that for every bounding box and every principal
axis, the per-slice box of job `i` equals the source box with only the
chosen axis's topleft offset by `i` and its size set to 1.  The code
violates this for axis `"x"`: because the `"x"` test is a separate `if`
rather than part of the `if`/`elif` chain, the `else` branch of the
`"y"` test (the z update) also runs, so the slice box for axis `"x"`,
source box topleft `[0,0,0]` / size `[10,20,30]` and slice number 1 is
topleft `[1,0,1]` / size `[1,20,1]` instead of the claimed topleft
`[1,0,0]` / size `[1,20,30]`.  (For axes `"y"` and `"z"`, and in
particular for the spec's `[10,20,30]`-along-z example, the claimed
boxes are the ones produced.) -/
theorem export_tiff_slice_axis_x_applies_z_update :
    export_tiff_slice_bbox "x" ⟨(0, 0, 0), (10, 20, 30)⟩ 1 = ⟨(1, 0, 1), (1, 20, 1)⟩ ∧
    export_tiff_slice_bbox "x" ⟨(0, 0, 0), (10, 20, 30)⟩ 1 ≠ ⟨(1, 0, 0), (1, 20, 30)⟩ ∧
    (export_tiff_stack_jobs ⟨(0, 0, 0), (10, 20, 30)⟩ "d" "n" "z" "p").length = 30 ∧
    export_tiff_slice_bbox "z" ⟨(0, 0, 0), (10, 20, 30)⟩ 7 = ⟨(0, 0, 7), (10, 20, 1)⟩ := by
  decide

/-- C2 counterexample: `"uint24"` has kind `uint` and a bit-width in
the claimed set, and the conversion arithmetic (24·n then /n) is exact,
yet the round trip fails for every channel count because numpy rejects
`"uint24"` as a per-channel dtype, so the round trip is not the
identity at `d = "uint24"`, `n = 3`. -/
theorem dtype_round_trip_uint24_counterexample :
    dtype_round_trip "uint24" 3 = .error .typeConversion ∧
    dtype_round_trip "uint24" 3 ≠ .ok "uint24" := by
  decide

/-- C2 (amended): for every dtype string of kind `uint` whose bit-width
is one of the widths numpy accepts as a per-channel dtype
({8, 16, 32, 64} — width 24 is rejected by the library before any
arithmetic) and every channel count in {1, 2, 3, 4}, converting
per-channel to per-layer and back is the identity. -/
theorem dtype_round_trip_id (w : Nat) (hw : w ∈ ([8, 16, 32, 64] : List Nat))
    (n : Nat) (hn : n ∈ ([1, 2, 3, 4] : List Nat)) :
    dtype_round_trip ("uint" ++ toString w) n = .ok ("uint" ++ toString w) := by
  fin_cases hw <;> fin_cases hn <;> decide

theorem dtype_round_trip_id_witness :
    8 ∈ ([8, 16, 32, 64] : List Nat) ∧ 3 ∈ ([1, 2, 3, 4] : List Nat) ∧
    dtype_round_trip ("uint" ++ toString 8) 3 = .ok ("uint" ++ toString 8) :=
  ⟨by decide, by decide, dtype_round_trip_id 8 (by decide) 3 (by decide)⟩

/-- C4: the claim says the slice file name encodes the slice box as
`{name}_topleft_{tx}_{ty}_{tz}_size_{sx}_{sy}_{sz}.tiff` with the size
fields taken from the box's size.  The code's own `_size_` field label
contradicts the values it interpolates: the size fields repeat the
topleft coordinates.  At name `"n"`, topleft `[1,2,3]`, size `[4,5,6]`
the produced name is `n_topleft_1_2_3_size_1_2_3.tiff`, not the claimed
`n_topleft_1_2_3_size_4_5_6.tiff`. -/
theorem tiff_name_size_fields_repeat_topleft :
    wkw_name_and_bbox_to_tiff_name "n" ⟨(1, 2, 3), (4, 5, 6)⟩
      = "n_topleft_1_2_3_size_1_2_3.tiff" ∧
    wkw_name_and_bbox_to_tiff_name "n" ⟨(1, 2, 3), (4, 5, 6)⟩
      ≠ "n_topleft_1_2_3_size_4_5_6.tiff" := by
  decide

/-- C5: for every axis argument other than `"x"`, `"y"`, `"z"`, the
export tool's `__main__` fails with the axis assertion
(InvalidAxisError) before any slice job is constructed: the result is
the error, not a job list. -/
theorem export_main_rejects_invalid_axis (axis : String) (bbox : TiffBBox)
    (destination_path name dataset_path : String)
    (h : axis ∉ (["x", "y", "z"] : List String)) :
    export_wkw_as_tiff_main axis bbox destination_path name dataset_path
      = .error .invalidAxis := by
  unfold export_wkw_as_tiff_main
  rw [if_neg h]

theorem export_main_rejects_invalid_axis_witness :
    "w" ∉ (["x", "y", "z"] : List String) ∧
    export_wkw_as_tiff_main "w" ⟨(0, 0, 0), (10, 20, 30)⟩ "d" "n" "p"
      = .error .invalidAxis :=
  ⟨by decide,
   export_main_rejects_invalid_axis "w" ⟨(0, 0, 0), (10, 20, 30)⟩ "d" "n" "p"
     (by decide)⟩

/-- C8: supplying both a per-layer and a per-channel dtype to
`add_layer` always fails with the AmbiguousDtypeError
(`AttributeError`), whatever the dataset, name, category or channel
count, and the state is returned unmodified — no layer is added. -/
theorem add_layer_both_dtypes_ambiguous (s : DatasetState) (ln cat : String)
    (dl dc : String) (nc : Option Nat) :
    add_layer s ln cat (some dl) (some dc) nc = .err .ambiguousDtype s := rfl

/-- C9: `add_layer` with neither dtype supplied defaults to an unsigned
8-bit-per-channel element type: the created layer's per-channel dtype is
`"uint8"` and the recorded per-layer dtype (element class) is
`"uint" ++ toString (8 * num_channels)` — in particular `"uint24"` for
3 channels, as the witness instantiates. -/
theorem add_layer_default_dtype (s : DatasetState) (ln cat : String)
    (nc : Option Nat) (h : ln ∉ dictKeys s.layers) :
    add_layer s ln cat none none nc
      = .ok ⟨ln, "uint8", nc.getD 1, []⟩
          ⟨dictSet s.layers ln ⟨ln, "uint8", nc.getD 1, []⟩,
           dictSet s.data_layers ln
             ⟨ln, cat, "uint" ++ toString (8 * nc.getD 1), nc.getD 1, []⟩⟩ := by
  have hr : resolve_dtypes none none (nc.getD 1)
      = .ok ("uint" ++ toString (8 * nc.getD 1), "uint8") := rfl
  simp only [add_layer, hr]
  rw [if_neg h]

theorem add_layer_default_dtype_witness :
    "color" ∉ dictKeys emptyDS.layers ∧
    add_layer emptyDS "color" "color" none none (some 3)
      = .ok ⟨"color", "uint8", 3, []⟩
          ⟨[("color", ⟨"color", "uint8", 3, []⟩)],
           [("color", ⟨"color", "color", "uint24", 3, []⟩)]⟩ :=
  ⟨by decide, by
    have h := add_layer_default_dtype emptyDS "color" "color" (some 3) (by decide)
    exact h⟩

/-- C3: starting from a dataset in which the in-memory `layers` dict and
the properties table list the same layer names, every mutating operation
(`add_layer`, `get_or_add_layer`, `delete_layer`, `add_symlink_layer`)
that returns normally re-establishes that synchronization: each updates
both structures together, and every raise happens either before any
mutation or (for the symlink dtype conversion) only on an abnormal
return. -/
theorem dataset_mutations_preserve_layers_sync (s : DatasetState)
    (hs : layersSync s) :
    (∀ ln cat dl dc nc l s₁,
      add_layer s ln cat dl dc nc = .ok l s₁ → layersSync s₁) ∧
    (∀ ln cat dl dc nc l s₁,
      get_or_add_layer s ln cat dl dc nc = .ok l s₁ → layersSync s₁) ∧
    (∀ ln s₁, delete_layer s ln = .ok () s₁ → layersSync s₁) ∧
    (∀ ln p l s₁, add_symlink_layer s ln p = .ok l s₁ → layersSync s₁) :=
  ⟨fun _ _ _ _ _ _ _ h => add_layer_sync hs h,
   fun _ _ _ _ _ _ _ h => get_or_add_layer_sync hs h,
   fun _ _ h => delete_layer_sync hs h,
   fun _ _ _ _ h => add_symlink_layer_sync hs h⟩

theorem dataset_mutations_preserve_layers_sync_witness :
    layersSync emptyDS ∧
    layersSync ⟨[("color", ⟨"color", "uint8", 3, []⟩)],
                [("color", ⟨"color", "color", "uint24", 3, []⟩)]⟩ := by
  have hs : layersSync emptyDS := fun _ => Iff.rfl
  refine ⟨hs, ?_⟩
  exact (dataset_mutations_preserve_layers_sync emptyDS hs).1 "color" "color"
    none none (some 3) ⟨"color", "uint8", 3, []⟩
    ⟨[("color", ⟨"color", "uint8", 3, []⟩)],
     [("color", ⟨"color", "color", "uint24", 3, []⟩)]⟩ (by decide)

/-- C10: when the layer exists and the caller supplies no per-layer
dtype, `get_or_add_layer` performs no dtype comparison at all — the
`dtype_per_channel` argument is completely unconstrained in this
statement — and returns the existing layer unchanged, provided only
that the category matches and the channel count is omitted or
matches. -/
theorem get_or_add_layer_ignores_dtype_per_channel (s : DatasetState)
    (ln cat : String) (dc : Option String) (nc : Option Nat)
    (existing : Layer) (pe : LayerProperties)
    (hl : lookup' s.layers ln = some existing)
    (hp : lookup' s.data_layers ln = some pe)
    (hcat : pe.category = cat)
    (hnc : ∀ n, nc = some n → existing.num_channels = n) :
    get_or_add_layer s ln cat none dc nc = .ok existing s := by
  simp only [get_or_add_layer, hl, hp, dtype_conv_of_none nc]
  rw [if_neg (show ¬pe.category ≠ cat from fun hne => hne hcat)]
  rw [if_neg (show ¬((none : Option String).isSome = true ∧
        existing.dtype_per_channel ≠ "float64") from fun hand => by
      exact Bool.noConfusion hand.1)]
  cases nc with
  | none => rfl
  | some n =>
    dsimp only
    rw [if_neg (show ¬existing.num_channels ≠ n from fun hne => hne (hnc n rfl))]

theorem get_or_add_layer_ignores_dtype_per_channel_witness :
    lookup' (⟨[("L", ⟨"L", "uint8", 1, []⟩)],
        [("L", ⟨"L", "color", "uint8", 1, []⟩)]⟩ : DatasetState).layers "L"
      = some ⟨"L", "uint8", 1, []⟩ ∧
    (⟨"L", "uint8", 1, []⟩ : Layer).dtype_per_channel ≠ "uint16" ∧
    get_or_add_layer ⟨[("L", ⟨"L", "uint8", 1, []⟩)],
        [("L", ⟨"L", "color", "uint8", 1, []⟩)]⟩ "L" "color" none (some "uint16") none
      = .ok ⟨"L", "uint8", 1, []⟩
          ⟨[("L", ⟨"L", "uint8", 1, []⟩)], [("L", ⟨"L", "color", "uint8", 1, []⟩)]⟩ :=
  ⟨by decide, by decide,
   get_or_add_layer_ignores_dtype_per_channel
     ⟨[("L", ⟨"L", "uint8", 1, []⟩)], [("L", ⟨"L", "color", "uint8", 1, []⟩)]⟩
     "L" "color" (some "uint16") none ⟨"L", "uint8", 1, []⟩
     ⟨"L", "color", "uint8", 1, []⟩ (by decide) (by decide) rfl
     (fun n hn => Option.noConfusion hn)⟩

/-- C6 counterexample: the claim says every `add_layer` call whose name
is already present fails with DuplicateLayerError.  The dtype-argument
validation runs before the duplicate-name check, so on a dataset that
already has a layer `"color"`, `add_layer` called with that name but
with both dtype arguments supplied fails with the AmbiguousDtypeError
instead. -/
theorem add_layer_duplicate_name_counterexample :
    "color" ∈ dictKeys (⟨[("color", ⟨"color", "uint8", 1, []⟩)],
        [("color", ⟨"color", "color", "uint8", 1, []⟩)]⟩ : DatasetState).layers ∧
    add_layer ⟨[("color", ⟨"color", "uint8", 1, []⟩)],
        [("color", ⟨"color", "color", "uint8", 1, []⟩)]⟩ "color" "color"
        (some "uint8") (some "uint8") none
      = .err .ambiguousDtype ⟨[("color", ⟨"color", "uint8", 1, []⟩)],
          [("color", ⟨"color", "color", "uint8", 1, []⟩)]⟩ ∧
    PyError.ambiguousDtype ≠ PyError.duplicateLayer := by
  decide

/-- C6 (amended): `add_layer` on a name already present always fails
and always leaves the state unmodified; the failure is the
DuplicateLayerError whenever the dtype arguments themselves are valid
(i.e. their resolution succeeds — at most one dtype supplied and the
conversion goes through); an invalid dtype-argument combination fails
with its own error first. -/
theorem add_layer_duplicate_name_fails (s : DatasetState) (ln cat : String)
    (dl dc : Option String) (nc : Option Nat)
    (hmem : ln ∈ dictKeys s.layers) :
    (∃ e, add_layer s ln cat dl dc nc = .err e s) ∧
    (∀ r, resolve_dtypes dl dc (nc.getD 1) = .ok r →
      add_layer s ln cat dl dc nc = .err .duplicateLayer s) := by
  constructor
  · cases hr : resolve_dtypes dl dc (nc.getD 1) with
    | error e =>
      refine ⟨e, ?_⟩
      simp only [add_layer, hr]
    | ok r =>
      refine ⟨.duplicateLayer, ?_⟩
      obtain ⟨dlr, dcp⟩ := r
      simp only [add_layer, hr]
      rw [if_pos hmem]
  · intro r hr
    obtain ⟨dlr, dcp⟩ := r
    simp only [add_layer, hr]
    rw [if_pos hmem]

lemma get_or_add_layer_ok_of_mem {s : DatasetState} {ln cat : String}
    {dl dc : Option String} {nc : Option Nat} {l existing : Layer} {s₁ : DatasetState}
    (hl : lookup' s.layers ln = some existing)
    (h : get_or_add_layer s ln cat dl dc nc = .ok l s₁) : l = existing ∧ s₁ = s := by
  simp only [get_or_add_layer, hl] at h
  cases hp : lookup' s.data_layers ln with
  | none =>
    simp only [hp] at h
    exact EResult.noConfusion h
  | some pe =>
    simp only [hp] at h
    split at h
    · exact EResult.noConfusion h
    · cases hc : dtype_per_layer_to_dtype_per_channel dl nc with
      | error e =>
        simp only [hc] at h
        exact EResult.noConfusion h
      | ok dcp =>
        simp only [hc] at h
        split at h
        · exact EResult.noConfusion h
        · cases nc with
          | some n =>
            dsimp only at h
            split at h
            · exact EResult.noConfusion h
            · injection h with ha hb
              exact ⟨ha.symm, hb.symm⟩
          | none =>
            injection h with ha hb
            exact ⟨ha.symm, hb.symm⟩

theorem add_layer_duplicate_name_fails_witness :
    "color" ∈ dictKeys (⟨[("color", ⟨"color", "uint8", 1, []⟩)],
        [("color", ⟨"color", "color", "uint8", 1, []⟩)]⟩ : DatasetState).layers ∧
    ((∃ e, add_layer ⟨[("color", ⟨"color", "uint8", 1, []⟩)],
          [("color", ⟨"color", "color", "uint8", 1, []⟩)]⟩ "color" "color"
          (some "uint8") none none
        = .err e ⟨[("color", ⟨"color", "uint8", 1, []⟩)],
            [("color", ⟨"color", "color", "uint8", 1, []⟩)]⟩) ∧
     (∀ r, resolve_dtypes (some "uint8") none ((none : Option Nat).getD 1) = .ok r →
       add_layer ⟨[("color", ⟨"color", "uint8", 1, []⟩)],
           [("color", ⟨"color", "color", "uint8", 1, []⟩)]⟩ "color" "color"
           (some "uint8") none none
         = .err .duplicateLayer ⟨[("color", ⟨"color", "uint8", 1, []⟩)],
             [("color", ⟨"color", "color", "uint8", 1, []⟩)]⟩)) :=
  ⟨by decide,
   add_layer_duplicate_name_fails
     ⟨[("color", ⟨"color", "uint8", 1, []⟩)],
      [("color", ⟨"color", "color", "uint8", 1, []⟩)]⟩
     "color" "color" (some "uint8") none none (by decide)⟩

/-- C7 counterexample: the claim says a second `get_or_add_layer` call
with identical arguments returns the same layer.  Two failing
scenarios, both on an empty dataset.  First: with
`dtype_per_layer = "uint8"` and `num_channels` omitted the first call
succeeds but the identical second call raises a `TypeError` — the
existing-layer branch recomputes the per-channel dtype from the raw
arguments, dividing the bit-width by the unset (`None`) channel count.
Second: with the alias spelling `dtype_per_layer = "uint"` and
`num_channels = 2` the first call normalizes to `"uint64"` and stores
per-channel `uint32`, but the second call's recomputation works from
the raw spelling — `np.dtype("uint")` is `uint64`, which does not
match — so the dtype assertion raises (ConfigMismatchError) instead of
returning the layer. -/
theorem get_or_add_layer_twice_counterexample :
    (get_or_add_layer emptyDS "L" "color" (some "uint8") none none
      = .ok ⟨"L", "uint8", 1, []⟩
          ⟨[("L", ⟨"L", "uint8", 1, []⟩)], [("L", ⟨"L", "color", "uint8", 1, []⟩)]⟩ ∧
     get_or_add_layer
        ⟨[("L", ⟨"L", "uint8", 1, []⟩)], [("L", ⟨"L", "color", "uint8", 1, []⟩)]⟩
        "L" "color" (some "uint8") none none
      = .err .typeConversion
          ⟨[("L", ⟨"L", "uint8", 1, []⟩)], [("L", ⟨"L", "color", "uint8", 1, []⟩)]⟩) ∧
    (get_or_add_layer emptyDS "L" "color" (some "uint") none (some 2)
      = .ok ⟨"L", "uint32", 2, []⟩
          ⟨[("L", ⟨"L", "uint32", 2, []⟩)], [("L", ⟨"L", "color", "uint64", 2, []⟩)]⟩ ∧
     get_or_add_layer
        ⟨[("L", ⟨"L", "uint32", 2, []⟩)], [("L", ⟨"L", "color", "uint64", 2, []⟩)]⟩
        "L" "color" (some "uint") none (some 2)
      = .err .dtypeMismatch
          ⟨[("L", ⟨"L", "uint32", 2, []⟩)], [("L", ⟨"L", "color", "uint64", 2, []⟩)]⟩) := by
  decide

/-- C7 (amended): `get_or_add_layer` is idempotent — a second call with
identical arguments returns the same layer and the same state, and the
properties table then holds exactly one entry for the name — provided
(a) `num_channels` is supplied whenever `dtype_per_layer` is (otherwise
the second call's dtype recomputation raises a `TypeError`), and (b)
any supplied `dtype_per_layer` is spelled so that the add-time
normalization `str(np.dtype(...))` leaves it unchanged: a canonical
dtype name, or a special string numpy rejects such as `"uint24"`
(otherwise the second call recomputes the per-channel dtype from the
raw alias spelling, which no longer matches the stored one, and the
dtype assertion raises).  Both provisos are forced by the
counterexample's two scenarios.  The dataset is assumed well-formed:
distinct property names and the §3 layers/properties
synchronization. -/
theorem get_or_add_layer_idempotent (s : DatasetState) (ln cat : String)
    (dl dc : Option String) (nc : Option Nat) (l : Layer) (s₁ : DatasetState)
    (hnd : (dictKeys s.data_layers).Nodup)
    (hs : layersSync s)
    (hdlnc : dl = none ∨ nc.isSome = true)
    (hnorm : ∀ d0, dl = some d0 → normalize_dtype_per_layer d0 = d0)
    (h1 : get_or_add_layer s ln cat dl dc nc = .ok l s₁) :
    get_or_add_layer s₁ ln cat dl dc nc = .ok l s₁ ∧ countKey s₁.data_layers ln = 1 := by
  cases hl : lookup' s.layers ln with
  | some existing =>
    obtain ⟨hle, hse⟩ := get_or_add_layer_ok_of_mem hl h1
    have hmem : ln ∈ dictKeys s.data_layers := by
      have h2 := h1
      simp only [get_or_add_layer, hl] at h2
      cases hp : lookup' s.data_layers ln with
      | none =>
        simp only [hp] at h2
        exact EResult.noConfusion h2
      | some pe => exact mem_dictKeys_of_lookup'_eq_some hp
    constructor
    · rw [hse]
      exact hse ▸ h1
    · rw [hse]
      exact countKey_eq_one_of_nodup hnd hmem
  | none =>
    have hmem : ln ∉ dictKeys s.layers := (lookup'_eq_none_iff _ _).mp hl
    have hmemp : ln ∉ dictKeys s.data_layers := fun hin => hmem ((hs ln).mpr hin)
    have h2 := h1
    simp only [get_or_add_layer, hl] at h2
    cases hr : resolve_dtypes dl dc (nc.getD 1) with
    | error e =>
      simp only [add_layer, hr] at h2
      exact EResult.noConfusion h2
    | ok r =>
      obtain ⟨dlr, dcp⟩ := r
      simp only [add_layer, hr] at h2
      rw [if_neg hmem] at h2
      injection h2 with hlv hsv
      subst hlv
      subst hsv
      constructor
      · have hl2 : lookup' (dictSet s.layers ln ⟨ln, dcp, nc.getD 1, []⟩) ln
            = some ⟨ln, dcp, nc.getD 1, []⟩ := lookup'_dictSet_self _ _ _
        have hp2 : lookup' (dictSet s.data_layers ln ⟨ln, cat, dlr, nc.getD 1, []⟩) ln
            = some ⟨ln, cat, dlr, nc.getD 1, []⟩ := lookup'_dictSet_self _ _ _
        simp only [get_or_add_layer, hl2, hp2]
        rw [if_neg (show ¬(⟨ln, cat, dlr, nc.getD 1, []⟩ : LayerProperties).category
              ≠ cat from fun hne => hne rfl)]
        cases dl with
        | none =>
          rw [dtype_conv_of_none nc]
          dsimp only
          split
          · rename_i hand
            exact absurd hand.1 (by simp)
          · cases nc with
            | none => rfl
            | some n =>
              dsimp only
              split
              · rename_i hne
                exact absurd rfl hne
              · rfl
        | some d0 =>
          rcases hdlnc with habs | hncs
          · exact Option.noConfusion habs
          · obtain ⟨n, rfl⟩ : ∃ n, nc = some n := by
              cases nc with
              | none => exact Bool.noConfusion hncs
              | some n => exact ⟨n, rfl⟩
            cases dc with
            | some dcx =>
              rw [show resolve_dtypes (some d0) (some dcx) ((some n).getD 1)
                    = .error .ambiguousDtype from rfl] at hr
              exact Except.noConfusion hr
            | none =>
              cases hf : dtype_per_layer_to_dtype_per_channel
                  (some (normalize_dtype_per_layer d0)) (some ((some n).getD 1)) with
              | error e =>
                simp only [resolve_dtypes, hf] at hr
                exact Except.noConfusion hr
              | ok x =>
                simp only [resolve_dtypes, hf] at hr
                injection hr with hpair
                injection hpair with hq1 hq2
                subst hq1
                subst hq2
                have hf2 : dtype_per_layer_to_dtype_per_channel (some d0) (some n)
                    = .ok x := by
                  rw [hnorm d0 rfl] at hf
                  exact hf
                rw [hf2]
                split
                · rename_i e he
                  exact Except.noConfusion he
                · rename_i y hy
                  injection hy with hxy
                  subst hxy
                  split
                  · rename_i hand
                    exact absurd rfl hand.2
                  · split
                    · rename_i m hm
                      injection hm with hnm
                      subst hnm
                      split
                      · rename_i hne
                        exact absurd rfl hne
                      · rfl
                    · rename_i hm
                      exact Option.noConfusion hm
      · exact countKey_dictSet_of_not_mem _ hmemp

theorem get_or_add_layer_idempotent_witness :
    (dictKeys (emptyDS.data_layers)).Nodup ∧
    (some 1 : Option Nat).isSome = true ∧
    normalize_dtype_per_layer "uint8" = "uint8" ∧
    (get_or_add_layer
        ⟨[("L", ⟨"L", "uint8", 1, []⟩)], [("L", ⟨"L", "color", "uint8", 1, []⟩)]⟩
        "L" "color" (some "uint8") none (some 1)
      = .ok ⟨"L", "uint8", 1, []⟩
          ⟨[("L", ⟨"L", "uint8", 1, []⟩)], [("L", ⟨"L", "color", "uint8", 1, []⟩)]⟩ ∧
     countKey (⟨[("L", ⟨"L", "uint8", 1, []⟩)],
         [("L", ⟨"L", "color", "uint8", 1, []⟩)]⟩ : DatasetState).data_layers "L" = 1) :=
  ⟨by decide, rfl, by decide,
   get_or_add_layer_idempotent emptyDS "L" "color" (some "uint8") none (some 1)
     ⟨"L", "uint8", 1, []⟩
     ⟨[("L", ⟨"L", "uint8", 1, []⟩)], [("L", ⟨"L", "color", "uint8", 1, []⟩)]⟩
     (by decide) (fun _ => Iff.rfl) (Or.inr rfl)
     (fun d0 hd0 => by
       injection hd0 with h
       rw [← h]
       decide)
     (by decide)⟩

end WkCuber
